import Mathlib

/-!
A shallow embedding of `src/app.py` (AI-DOC-MCP): a document-processing
pipeline of file readers, a model-API gateway, and five task functions.
External effects (file I/O, the HTTP chat-completion call, the gateway seen
from the task functions) are passed as explicit function parameters; Python
strings are modelled as Lean `String` (both `len`/`String.length` and
slicing/`String.take` count Unicode code points); a Python function body
that may raise is modelled as a value of `Except String α` carrying the
exception message.
-/

namespace AIDocMCP

/-- Source constant `ZHIPU_API_KEY` (app.py line 10). -/
def ZHIPU_API_KEY : String := "YOUR-API-KEY"

/-- Source constant `ZHIPU_MODEL` (app.py line 11). -/
def ZHIPU_MODEL : String := "glm-4-flash-250414"

/-- Model of Python `str.endswith`: code-point-level, case-sensitive suffix
test. -/
def pyEndsWith (s pat : String) : Bool :=
  pat.data.isSuffixOf s.data

/-- `read_pdf` (app.py lines 16-31).  The fallible body
(`open` + `PyPDF2.PdfReader` + page iteration) is modelled by its outcome:
either an exception message, or the list of per-page `extract_text()`
results (`none` models a page whose extraction returned `None`; the source
replaces falsy extraction results by `""` via `or ""`).  On success the
pages are concatenated into `text` starting from `""`; on any exception the
reader returns `"PDF读取失败: " ++ message`. -/
def read_pdf (file : Except String (List (Option String))) : String :=
  match file with
  | Except.ok pages => pages.foldl (fun text page => text ++ page.getD "") ""
  | Except.error e => "PDF读取失败: " ++ e

/-- `read_word` (app.py lines 34-45).  The fallible body
(`docx.Document` + paragraph iteration) is modelled by its outcome: either
an exception message or the list of paragraph texts, which the source joins
with `"\n"`. -/
def read_word (file : Except String (List String)) : String :=
  match file with
  | Except.ok paras => String.intercalate "\n" paras
  | Except.error e => "Word读取失败: " ++ e

/-- `read_txt` (app.py lines 48-59).  The fallible body (`open` + `read`
with `errors="ignore"`) is modelled by its outcome: either an exception
message or the decoded file content. -/
def read_txt (file : Except String String) : String :=
  match file with
  | Except.ok content => content
  | Except.error e => "TXT读取失败: " ++ e

/-- The file system seen by `parse_document`: for each path, the outcome of
opening/parsing it as a PDF, a Word document, or a text file. -/
structure FileSystem where
  pdfFile : String → Except String (List (Option String))
  wordFile : String → Except String (List String)
  txtFile : String → Except String String

/-- `parse_document` (app.py lines 62-79).  Python's falsy test
`if not file_path` is modelled over `Option String`: `None` and `""` both
take the empty-path branch.  Extension dispatch is by case-sensitive
`endswith`. -/
def parse_document (fs : FileSystem) (file_path : Option String) : String :=
  match file_path with
  | none => "文件路径为空"
  | some p =>
    if p = "" then "文件路径为空"
    else if pyEndsWith p ".pdf" then read_pdf (fs.pdfFile p)
    else if pyEndsWith p ".docx" then read_word (fs.wordFile p)
    else if pyEndsWith p ".txt" then read_txt (fs.txtFile p)
    else "不支持的文件格式，仅支持PDF(.pdf)、Word(.docx)、TXT(.txt)"

/-- `call_model_api` (app.py lines 82-103).  The external chat-completion
call (client construction, `chat.completions.create`, and the extraction
`response.choices[0].message.content`) is a fallible computation from the
prompt and `max_tokens` to the first choice's message content, modelled by
the parameter `chat`; the `ZHIPU_API_KEY` global is the `apiKey` parameter
(the source default `max_tokens=1024` is never used: every caller passes a
budget explicitly). -/
def call_model_api (chat : String → Nat → Except String String)
    (apiKey : String) (prompt : String) (max_tokens : Nat) : String :=
  if apiKey = "" then "请配置智谱开放平台API密钥（ZHIPU_API_KEY）"
  else
    match chat prompt max_tokens with
    | Except.ok content => content
    | Except.error e => "API调用失败: " ++ e

/-- The Model Gateway as the task functions see it: `call_model_api`
applied to prompt and token budget. -/
abbrev Gateway := String → Nat → String

/-- `generate_summary` (app.py lines 106-119).  The f-string prompt
embeds `text[:3000]`; the trailing `  # 限制输入长度，避免超出模型上下文`
of line 117 is inside the triple-quoted f-string, as is the final
newline-plus-indent before the closing quotes. -/
def generate_summary (gw : Gateway) (text : String) : String :=
  if text.length < 50 then "文档内容过短（少于50字），无法生成摘要"
  else
    gw ("请总结以下文档的核心内容，要求简洁明了，不超过300字：\n    "
        ++ text.take 3000
        ++ "  # 限制输入长度，避免超出模型上下文\n    ") 300

/-- `extract_key_info` (app.py lines 122-135). -/
def extract_key_info (gw : Gateway) (text : String) : String :=
  if text.length < 50 then "文档内容过短（少于50字），无法提取关键信息"
  else
    gw ("请从以下文档中提取关键信息，包括主要观点、重要数据、核心结论等，用结构化的方式（如分点、表格）呈现：\n    "
        ++ text.take 3000
        ++ "\n    ") 500

/-- `document_qa` (app.py lines 138-155).  Python's `if not question` is
emptiness of the question string. -/
def document_qa (gw : Gateway) (text question : String) : String :=
  if question = "" then "请输入问题"
  else if text.length < 50 then "文档内容过短（少于50字），无法回答问题"
  else
    gw ("基于以下文档内容，回答问题：" ++ question
        ++ "\n    文档内容：" ++ text.take 3000
        ++ "\n    要求：只能根据文档内容回答，不编造信息；若文档无相关内容，需明确说明\n    ") 500

/-- `supported_langs` (app.py line 168). -/
def supported_langs : List String := ["中文", "英文", "日文", "韩文", "法文", "德文"]

/-- `translate_text` (app.py lines 158-175). -/
def translate_text (gw : Gateway) (text target_lang : String) : String :=
  if text.length < 10 then "文本过短（少于10字），无法翻译"
  else if target_lang ∉ supported_langs then
    "不支持的目标语言：" ++ target_lang ++ "（支持："
      ++ String.intercalate "," supported_langs ++ "）"
  else
    gw ("请将以下文本翻译成" ++ target_lang ++ "，保持原意准确，语言流畅：\n    "
        ++ text.take 2000
        ++ "\n    ") 2000

/-- `supported_formats` (app.py line 188). -/
def supported_formats : List String := ["Markdown", "表格", "项目符号列表", "编号列表"]

/-- `format_conversion` (app.py lines 178-195). -/
def format_conversion (gw : Gateway) (text target_format : String) : String :=
  if text.length < 50 then "文本过短（少于50字），无法转换格式"
  else if target_format ∉ supported_formats then
    "不支持的目标格式：" ++ target_format ++ "（支持："
      ++ String.intercalate "," supported_formats ++ "）"
  else
    gw ("请将以下文本转换为" ++ target_format ++ "格式，保持内容完整和结构清晰：\n    "
        ++ text.take 3000
        ++ "\n    ") 1000

/-- A gateway that returns the prompt it was given: used to observe the
prompt a task function constructs. -/
def capture : Gateway := fun p _ => p

/-- A file system on which every open/parse attempt raises. -/
def failFS : FileSystem :=
  { pdfFile := fun _ => Except.error "e"
    wordFile := fun _ => Except.error "e"
    txtFile := fun _ => Except.error "e" }

/-- C5: every format-specific reader converts an exception raised at the
file-I/O/parsing boundary into the string
`"<FormatName>读取失败: <exception message>"`; since the readers are total
functions into `String`, neither success nor failure ever raises to the
caller. -/
theorem readers_error_strings (e : String) :
    read_pdf (Except.error e) = "PDF读取失败: " ++ e
    ∧ read_word (Except.error e) = "Word读取失败: " ++ e
    ∧ read_txt (Except.error e) = "TXT读取失败: " ++ e :=
  ⟨rfl, rfl, rfl⟩

/-- C5 witness at a concrete exception message. -/
theorem readers_error_strings_w :
    read_pdf (Except.error "no such file") = "PDF读取失败: no such file"
    ∧ read_word (Except.error "no such file") = "Word读取失败: no such file"
    ∧ read_txt (Except.error "no such file") = "TXT读取失败: no such file" :=
  readers_error_strings "no such file"

/-- C10: an absent (`none`) or empty file path makes `parse_document`
return the distinct message `"文件路径为空"`, which differs from the
unsupported-format message; the empty-path check precedes extension
dispatch, so the unsupported-format message can only be returned for a
non-empty path. -/
theorem parse_document_empty_path (fs : FileSystem) :
    parse_document fs none = "文件路径为空"
    ∧ parse_document fs (some "") = "文件路径为空"
    ∧ "文件路径为空" ≠ "不支持的文件格式，仅支持PDF(.pdf)、Word(.docx)、TXT(.txt)"
    ∧ ∀ p : String,
        parse_document fs (some p)
          = "不支持的文件格式，仅支持PDF(.pdf)、Word(.docx)、TXT(.txt)" →
        p ≠ "" := by
  refine ⟨rfl, rfl, by decide, ?_⟩
  intro p h hp
  subst hp
  rw [show parse_document fs (some "") = "文件路径为空" from rfl] at h
  exact absurd h (by decide)

/-- C10 witness at the stub file system: the unsupported-format result at
path `"x.bin"` forces the path to be non-empty. -/
theorem parse_document_empty_path_w :
    parse_document failFS none = "文件路径为空"
    ∧ parse_document failFS (some "") = "文件路径为空"
    ∧ ("x.bin" : String) ≠ "" :=
  ⟨(parse_document_empty_path failFS).1, (parse_document_empty_path failFS).2.1,
   (parse_document_empty_path failFS).2.2.2 "x.bin" (by decide)⟩

/-- C7: with an absent (empty) API key, `call_model_api` returns the
configuration-error string without consulting the external call at all
(the result is this string for every `chat`); with a configured key whose
invalidity makes the external call raise, the failure is surfaced as the
user-visible string `"API调用失败: <message>"` rather than an exception
(the function is total into `String`). -/
theorem missing_api_key_reported :
    (∀ (chat : String → Nat → Except String String) (prompt : String) (tokens : Nat),
      call_model_api chat "" prompt tokens = "请配置智谱开放平台API密钥（ZHIPU_API_KEY）")
    ∧ (∀ (apiKey prompt e : String) (tokens : Nat), apiKey ≠ "" →
      call_model_api (fun _ _ => Except.error e) apiKey prompt tokens
        = "API调用失败: " ++ e) := by
  constructor
  · intro chat prompt tokens
    rfl
  · intro apiKey prompt e tokens h
    simp [call_model_api, h]

/-- C7 witness at concrete inputs. -/
theorem missing_api_key_reported_w :
    call_model_api (fun _ _ => Except.ok "OK") "" "p" 10
      = "请配置智谱开放平台API密钥（ZHIPU_API_KEY）"
    ∧ ("k" ≠ ""
        ∧ call_model_api (fun _ _ => Except.error "auth") "k" "p" 10
            = "API调用失败: auth") :=
  ⟨missing_api_key_reported.1 (fun _ _ => Except.ok "OK") "p" 10,
   by decide,
   missing_api_key_reported.2 "k" "p" "auth" 10 (by decide)⟩

/-- C4: with a configured API key, an exception raised during the external
chat-completion call is caught and returned as
`"API调用失败: <exception message>"` (never propagated, as the function is
total into `String`), and a successful call returns the first choice's
message content unchanged. -/
theorem call_model_api_catches (chat : String → Nat → Except String String)
    (apiKey prompt : String) (tokens : Nat) (hk : apiKey ≠ "") :
    (∀ e, chat prompt tokens = Except.error e →
      call_model_api chat apiKey prompt tokens = "API调用失败: " ++ e)
    ∧ (∀ s, chat prompt tokens = Except.ok s →
      call_model_api chat apiKey prompt tokens = s) := by
  constructor
  · intro e he
    simp [call_model_api, hk, he]
  · intro s hs
    simp [call_model_api, hk, hs]

/-- C4 witness at concrete raising and succeeding calls. -/
theorem call_model_api_catches_w :
    ("k" ≠ ""
      ∧ call_model_api (fun _ _ => Except.error "rate limit") "k" "p" 10
          = "API调用失败: rate limit")
    ∧ call_model_api (fun _ _ => Except.ok "content") "k" "p" 10 = "content" :=
  ⟨⟨by decide,
    (call_model_api_catches (fun _ _ => Except.error "rate limit") "k" "p" 10
      (by decide)).1 "rate limit" rfl⟩,
   (call_model_api_catches (fun _ _ => Except.ok "content") "k" "p" 10
      (by decide)).2 "content" rfl⟩

/-- C2: every validation failure (text below the per-task minimum length,
an empty Q&A question, or a target language/format outside the allow-list)
makes the task function return its descriptive error string, and the result
does not depend on the gateway at all — the Model Gateway is never
invoked. -/
theorem validation_short_circuits :
    (∀ (gw : Gateway) (text : String), text.length < 50 →
      generate_summary gw text = "文档内容过短（少于50字），无法生成摘要")
    ∧ (∀ (gw : Gateway) (text : String), text.length < 50 →
      extract_key_info gw text = "文档内容过短（少于50字），无法提取关键信息")
    ∧ (∀ (gw : Gateway) (text : String), document_qa gw text "" = "请输入问题")
    ∧ (∀ (gw : Gateway) (text question : String), question ≠ "" → text.length < 50 →
      document_qa gw text question = "文档内容过短（少于50字），无法回答问题")
    ∧ (∀ (gw : Gateway) (text lang : String), text.length < 10 →
      translate_text gw text lang = "文本过短（少于10字），无法翻译")
    ∧ (∀ (gw : Gateway) (text lang : String), 10 ≤ text.length →
      lang ∉ supported_langs →
      translate_text gw text lang
        = "不支持的目标语言：" ++ lang ++ "（支持："
            ++ String.intercalate "," supported_langs ++ "）")
    ∧ (∀ (gw : Gateway) (text fmt : String), text.length < 50 →
      format_conversion gw text fmt = "文本过短（少于50字），无法转换格式")
    ∧ (∀ (gw : Gateway) (text fmt : String), 50 ≤ text.length →
      fmt ∉ supported_formats →
      format_conversion gw text fmt
        = "不支持的目标格式：" ++ fmt ++ "（支持："
            ++ String.intercalate "," supported_formats ++ "）") := by
  refine ⟨?_, ?_, ?_, ?_, ?_, ?_, ?_, ?_⟩
  · intro gw text h
    simp [generate_summary, h]
  · intro gw text h
    simp [extract_key_info, h]
  · intro gw text
    simp [document_qa]
  · intro gw text question hq h
    simp [document_qa, hq, h]
  · intro gw text lang h
    simp [translate_text, h]
  · intro gw text lang h hl
    have h10 : ¬ text.length < 10 := by omega
    simp [translate_text, h10, hl]
  · intro gw text fmt h
    simp [format_conversion, h]
  · intro gw text fmt h hf
    have h50 : ¬ text.length < 50 := by omega
    simp [format_conversion, h50, hf]

/-- C2 witness at concrete inputs for each validation failure, using two
distinct stub gateways to exhibit gateway independence. -/
theorem validation_short_circuits_w :
    (("short" : String).length < 50
      ∧ generate_summary (fun _ _ => "A") "short" = "文档内容过短（少于50字），无法生成摘要"
      ∧ generate_summary (fun _ _ => "B") "short" = "文档内容过短（少于50字），无法生成摘要")
    ∧ extract_key_info (fun _ _ => "A") "short" = "文档内容过短（少于50字），无法提取关键信息"
    ∧ document_qa (fun _ _ => "A") "short" "" = "请输入问题"
    ∧ ("q" ≠ ""
      ∧ document_qa (fun _ _ => "A") "short" "q" = "文档内容过短（少于50字），无法回答问题")
    ∧ translate_text (fun _ _ => "A") "ab" "英文" = "文本过短（少于10字），无法翻译"
    ∧ (10 ≤ ("0123456789" : String).length
      ∧ "Latin" ∉ supported_langs
      ∧ translate_text (fun _ _ => "A") "0123456789" "Latin"
          = "不支持的目标语言：" ++ "Latin" ++ "（支持："
              ++ String.intercalate "," supported_langs ++ "）")
    ∧ format_conversion (fun _ _ => "A") "short" "Markdown" = "文本过短（少于50字），无法转换格式"
    ∧ (50 ≤ (String.mk (List.replicate 60 'a')).length
      ∧ "XML" ∉ supported_formats
      ∧ format_conversion (fun _ _ => "A") (String.mk (List.replicate 60 'a')) "XML"
          = "不支持的目标格式：" ++ "XML" ++ "（支持："
              ++ String.intercalate "," supported_formats ++ "）") :=
  ⟨⟨by decide,
    validation_short_circuits.1 (fun _ _ => "A") "short" (by decide),
    validation_short_circuits.1 (fun _ _ => "B") "short" (by decide)⟩,
   validation_short_circuits.2.1 (fun _ _ => "A") "short" (by decide),
   validation_short_circuits.2.2.1 (fun _ _ => "A") "short",
   ⟨by decide,
    validation_short_circuits.2.2.2.1 (fun _ _ => "A") "short" "q" (by decide) (by decide)⟩,
   validation_short_circuits.2.2.2.2.1 (fun _ _ => "A") "ab" "英文" (by decide),
   ⟨by decide, by decide,
    validation_short_circuits.2.2.2.2.2.1 (fun _ _ => "A") "0123456789" "Latin"
      (by decide) (by decide)⟩,
   validation_short_circuits.2.2.2.2.2.2.1 (fun _ _ => "A") "short" "Markdown" (by decide),
   ⟨by decide, by decide,
    validation_short_circuits.2.2.2.2.2.2.2 (fun _ _ => "A")
      (String.mk (List.replicate 60 'a')) "XML" (by decide) (by decide)⟩⟩

/-- C3: on valid inputs, each task function returns the Model Gateway's
result exactly, without post-processing: with a stub gateway returning the
fixed string `s`, every task function returns `s`. -/
theorem gateway_passthrough :
    (∀ (s text : String), 50 ≤ text.length →
      generate_summary (fun _ _ => s) text = s)
    ∧ (∀ (s text : String), 50 ≤ text.length →
      extract_key_info (fun _ _ => s) text = s)
    ∧ (∀ (s text question : String), question ≠ "" → 50 ≤ text.length →
      document_qa (fun _ _ => s) text question = s)
    ∧ (∀ (s text lang : String), 10 ≤ text.length → lang ∈ supported_langs →
      translate_text (fun _ _ => s) text lang = s)
    ∧ (∀ (s text fmt : String), 50 ≤ text.length → fmt ∈ supported_formats →
      format_conversion (fun _ _ => s) text fmt = s) := by
  refine ⟨?_, ?_, ?_, ?_, ?_⟩
  · intro s text h
    have hn : ¬ text.length < 50 := by omega
    simp [generate_summary, hn]
  · intro s text h
    have hn : ¬ text.length < 50 := by omega
    simp [extract_key_info, hn]
  · intro s text question hq h
    have hn : ¬ text.length < 50 := by omega
    simp [document_qa, hq, hn]
  · intro s text lang h hl
    have hn : ¬ text.length < 10 := by omega
    simp [translate_text, hn, hl]
  · intro s text fmt h hf
    have hn : ¬ text.length < 50 := by omega
    simp [format_conversion, hn, hf]

/-- C3 witness: the stub returns `"OK-123"` and a 60-character valid text
(with valid parameters) makes every task function return `"OK-123"`. -/
theorem gateway_passthrough_w :
    (50 ≤ (String.mk (List.replicate 60 'a')).length
      ∧ generate_summary (fun _ _ => "OK-123") (String.mk (List.replicate 60 'a')) = "OK-123")
    ∧ extract_key_info (fun _ _ => "OK-123") (String.mk (List.replicate 60 'a')) = "OK-123"
    ∧ ("q" ≠ ""
      ∧ document_qa (fun _ _ => "OK-123") (String.mk (List.replicate 60 'a')) "q" = "OK-123")
    ∧ ("英文" ∈ supported_langs
      ∧ translate_text (fun _ _ => "OK-123") (String.mk (List.replicate 60 'a')) "英文" = "OK-123")
    ∧ ("Markdown" ∈ supported_formats
      ∧ format_conversion (fun _ _ => "OK-123") (String.mk (List.replicate 60 'a')) "Markdown"
          = "OK-123") :=
  ⟨⟨by decide,
    gateway_passthrough.1 "OK-123" (String.mk (List.replicate 60 'a')) (by decide)⟩,
   gateway_passthrough.2.1 "OK-123" (String.mk (List.replicate 60 'a')) (by decide),
   ⟨by decide,
    gateway_passthrough.2.2.1 "OK-123" (String.mk (List.replicate 60 'a')) "q"
      (by decide) (by decide)⟩,
   ⟨by decide,
    gateway_passthrough.2.2.2.1 "OK-123" (String.mk (List.replicate 60 'a')) "英文"
      (by decide) (by decide)⟩,
   ⟨by decide,
    gateway_passthrough.2.2.2.2 "OK-123" (String.mk (List.replicate 60 'a')) "Markdown"
      (by decide) (by decide)⟩⟩

/-- C9: the source comment `# 限制输入长度，避免超出模型上下文` of app.py
line 117 sits inside the triple-quoted f-string, so for every valid input
the prompt `generate_summary` sends to the gateway is the instruction head,
then the first 3000 characters of the text, then the literal leftover
comment (preceded by the two spaces of the source line), then the closing
newline and indentation. -/
theorem summary_prompt_leftover_comment (text : String) (h : 50 ≤ text.length) :
    generate_summary capture text
      = "请总结以下文档的核心内容，要求简洁明了，不超过300字：\n    "
        ++ text.take 3000
        ++ "  # 限制输入长度，避免超出模型上下文"
        ++ "\n    " := by
  have hn : ¬ text.length < 50 := by omega
  have hsplit : ("  # 限制输入长度，避免超出模型上下文\n    " : String)
      = "  # 限制输入长度，避免超出模型上下文" ++ "\n    " := by decide
  rw [generate_summary, if_neg hn, capture, hsplit]
  simp [String.append_assoc]

/-- C9 witness at a concrete 60-character text. -/
theorem summary_prompt_leftover_comment_w :
    50 ≤ (String.mk (List.replicate 60 'a')).length
    ∧ generate_summary capture (String.mk (List.replicate 60 'a'))
        = "请总结以下文档的核心内容，要求简洁明了，不超过300字：\n    "
          ++ (String.mk (List.replicate 60 'a')).take 3000
          ++ "  # 限制输入长度，避免超出模型上下文"
          ++ "\n    " :=
  ⟨by decide,
   summary_prompt_leftover_comment (String.mk (List.replicate 60 'a')) (by decide)⟩

/-- A 60-character text used as a concrete valid input. -/
def aText60 : String := String.mk (List.replicate 60 'a')

/-- The length of a truncated slice is the minimum of the text length and
the slice bound. -/
theorem length_take_min (s : String) (n : Nat) : (s.take n).length = min s.length n := by
  rw [String.take_eq]
  rw [show (String.mk (s.1.take n)).length = (s.1.take n).length from rfl]
  rw [List.length_take, String.length_data, Nat.min_comm]

/-- C1: on inputs passing validation, each task function's prompt embeds
exactly the first `min (length text) budget` characters of the text
(budget 3000 for summary, key-info, Q&A and format conversion; 2000 for
translation), so the prompt's length is the length of the instruction text
plus `min (length text) budget`, and is bounded by the instruction length
plus the budget. -/
theorem prompt_truncation_bounds :
    (∀ text : String, 50 ≤ text.length →
      generate_summary capture text
          = "请总结以下文档的核心内容，要求简洁明了，不超过300字：\n    "
            ++ text.take 3000
            ++ "  # 限制输入长度，避免超出模型上下文\n    "
        ∧ (generate_summary capture text).length
            = ("请总结以下文档的核心内容，要求简洁明了，不超过300字：\n    " : String).length
              + ("  # 限制输入长度，避免超出模型上下文\n    " : String).length
              + min text.length 3000
        ∧ (generate_summary capture text).length
            ≤ ("请总结以下文档的核心内容，要求简洁明了，不超过300字：\n    " : String).length
              + ("  # 限制输入长度，避免超出模型上下文\n    " : String).length
              + 3000)
    ∧ (∀ text : String, 50 ≤ text.length →
      extract_key_info capture text
          = "请从以下文档中提取关键信息，包括主要观点、重要数据、核心结论等，用结构化的方式（如分点、表格）呈现：\n    "
            ++ text.take 3000 ++ "\n    "
        ∧ (extract_key_info capture text).length
            = ("请从以下文档中提取关键信息，包括主要观点、重要数据、核心结论等，用结构化的方式（如分点、表格）呈现：\n    " : String).length
              + ("\n    " : String).length + min text.length 3000
        ∧ (extract_key_info capture text).length
            ≤ ("请从以下文档中提取关键信息，包括主要观点、重要数据、核心结论等，用结构化的方式（如分点、表格）呈现：\n    " : String).length
              + ("\n    " : String).length + 3000)
    ∧ (∀ text question : String, question ≠ "" → 50 ≤ text.length →
      document_qa capture text question
          = "基于以下文档内容，回答问题：" ++ question
            ++ "\n    文档内容：" ++ text.take 3000
            ++ "\n    要求：只能根据文档内容回答，不编造信息；若文档无相关内容，需明确说明\n    "
        ∧ (document_qa capture text question).length
            = ("基于以下文档内容，回答问题：" : String).length + question.length
              + ("\n    文档内容：" : String).length
              + ("\n    要求：只能根据文档内容回答，不编造信息；若文档无相关内容，需明确说明\n    " : String).length
              + min text.length 3000
        ∧ (document_qa capture text question).length
            ≤ ("基于以下文档内容，回答问题：" : String).length + question.length
              + ("\n    文档内容：" : String).length
              + ("\n    要求：只能根据文档内容回答，不编造信息；若文档无相关内容，需明确说明\n    " : String).length
              + 3000)
    ∧ (∀ text lang : String, 10 ≤ text.length → lang ∈ supported_langs →
      translate_text capture text lang
          = "请将以下文本翻译成" ++ lang ++ "，保持原意准确，语言流畅：\n    "
            ++ text.take 2000 ++ "\n    "
        ∧ (translate_text capture text lang).length
            = ("请将以下文本翻译成" : String).length + lang.length
              + ("，保持原意准确，语言流畅：\n    " : String).length
              + ("\n    " : String).length + min text.length 2000
        ∧ (translate_text capture text lang).length
            ≤ ("请将以下文本翻译成" : String).length + lang.length
              + ("，保持原意准确，语言流畅：\n    " : String).length
              + ("\n    " : String).length + 2000)
    ∧ (∀ text fmt : String, 50 ≤ text.length → fmt ∈ supported_formats →
      format_conversion capture text fmt
          = "请将以下文本转换为" ++ fmt ++ "格式，保持内容完整和结构清晰：\n    "
            ++ text.take 3000 ++ "\n    "
        ∧ (format_conversion capture text fmt).length
            = ("请将以下文本转换为" : String).length + fmt.length
              + ("格式，保持内容完整和结构清晰：\n    " : String).length
              + ("\n    " : String).length + min text.length 3000
        ∧ (format_conversion capture text fmt).length
            ≤ ("请将以下文本转换为" : String).length + fmt.length
              + ("格式，保持内容完整和结构清晰：\n    " : String).length
              + ("\n    " : String).length + 3000) := by
  refine ⟨?_, ?_, ?_, ?_, ?_⟩
  · intro text h
    have hn : ¬ text.length < 50 := by omega
    have he : generate_summary capture text
        = "请总结以下文档的核心内容，要求简洁明了，不超过300字：\n    "
          ++ text.take 3000
          ++ "  # 限制输入长度，避免超出模型上下文\n    " := by
      rw [generate_summary, if_neg hn, capture]
    refine ⟨he, ?_, ?_⟩
    · rw [he]
      simp only [String.length_append, length_take_min]
      omega
    · rw [he]
      simp only [String.length_append, length_take_min]
      omega
  · intro text h
    have hn : ¬ text.length < 50 := by omega
    have he : extract_key_info capture text
        = "请从以下文档中提取关键信息，包括主要观点、重要数据、核心结论等，用结构化的方式（如分点、表格）呈现：\n    "
          ++ text.take 3000 ++ "\n    " := by
      rw [extract_key_info, if_neg hn, capture]
    refine ⟨he, ?_, ?_⟩
    · rw [he]
      simp only [String.length_append, length_take_min]
      omega
    · rw [he]
      simp only [String.length_append, length_take_min]
      omega
  · intro text question hq h
    have hn : ¬ text.length < 50 := by omega
    have he : document_qa capture text question
        = "基于以下文档内容，回答问题：" ++ question
          ++ "\n    文档内容：" ++ text.take 3000
          ++ "\n    要求：只能根据文档内容回答，不编造信息；若文档无相关内容，需明确说明\n    " := by
      rw [document_qa, if_neg hq, if_neg hn, capture]
    refine ⟨he, ?_, ?_⟩
    · rw [he]
      simp only [String.length_append, length_take_min]
      omega
    · rw [he]
      simp only [String.length_append, length_take_min]
      omega
  · intro text lang h hl
    have hn : ¬ text.length < 10 := by omega
    have he : translate_text capture text lang
        = "请将以下文本翻译成" ++ lang ++ "，保持原意准确，语言流畅：\n    "
          ++ text.take 2000 ++ "\n    " := by
      rw [translate_text, if_neg hn, if_neg (not_not_intro hl), capture]
    refine ⟨he, ?_, ?_⟩
    · rw [he]
      simp only [String.length_append, length_take_min]
      omega
    · rw [he]
      simp only [String.length_append, length_take_min]
      omega
  · intro text fmt h hf
    have hn : ¬ text.length < 50 := by omega
    have he : format_conversion capture text fmt
        = "请将以下文本转换为" ++ fmt ++ "格式，保持内容完整和结构清晰：\n    "
          ++ text.take 3000 ++ "\n    " := by
      rw [format_conversion, if_neg hn, if_neg (not_not_intro hf), capture]
    refine ⟨he, ?_, ?_⟩
    · rw [he]
      simp only [String.length_append, length_take_min]
      omega
    · rw [he]
      simp only [String.length_append, length_take_min]
      omega

/-- C1 witness: the truncation length identity instantiated for each task
at a concrete 60-character text and valid parameters. -/
theorem prompt_truncation_bounds_w :
    (50 ≤ aText60.length
      ∧ (generate_summary capture aText60).length
          = ("请总结以下文档的核心内容，要求简洁明了，不超过300字：\n    " : String).length
            + ("  # 限制输入长度，避免超出模型上下文\n    " : String).length
            + min aText60.length 3000)
    ∧ (extract_key_info capture aText60).length
        = ("请从以下文档中提取关键信息，包括主要观点、重要数据、核心结论等，用结构化的方式（如分点、表格）呈现：\n    " : String).length
          + ("\n    " : String).length + min aText60.length 3000
    ∧ (document_qa capture aText60 "q").length
        = ("基于以下文档内容，回答问题：" : String).length + ("q" : String).length
          + ("\n    文档内容：" : String).length
          + ("\n    要求：只能根据文档内容回答，不编造信息；若文档无相关内容，需明确说明\n    " : String).length
          + min aText60.length 3000
    ∧ (translate_text capture aText60 "英文").length
        = ("请将以下文本翻译成" : String).length + ("英文" : String).length
          + ("，保持原意准确，语言流畅：\n    " : String).length
          + ("\n    " : String).length + min aText60.length 2000
    ∧ (format_conversion capture aText60 "Markdown").length
        = ("请将以下文本转换为" : String).length + ("Markdown" : String).length
          + ("格式，保持内容完整和结构清晰：\n    " : String).length
          + ("\n    " : String).length + min aText60.length 3000 :=
  ⟨⟨by decide, (prompt_truncation_bounds.1 aText60 (by decide)).2.1⟩,
   (prompt_truncation_bounds.2.1 aText60 (by decide)).2.1,
   (prompt_truncation_bounds.2.2.1 aText60 "q" (by decide) (by decide)).2.1,
   (prompt_truncation_bounds.2.2.2.1 aText60 "英文" (by decide) (by decide)).2.1,
   (prompt_truncation_bounds.2.2.2.2 aText60 "Markdown" (by decide) (by decide)).2.1⟩

/-- C6: `parse_document` dispatches on a case-sensitive suffix match of
the path (`.pdf` to the PDF reader, `.docx` to the Word reader, `.txt` to
the text reader), and every non-empty path with none of these suffixes
yields the fixed unsupported-format message (the function is total, so it
never raises); an upper-case extension such as `"a.PDF"` is not matched. -/
theorem parse_document_dispatch (fs : FileSystem) (p : String) :
    (pyEndsWith p ".pdf" = true →
      parse_document fs (some p) = read_pdf (fs.pdfFile p))
    ∧ (pyEndsWith p ".docx" = true →
      parse_document fs (some p) = read_word (fs.wordFile p))
    ∧ (pyEndsWith p ".txt" = true →
      parse_document fs (some p) = read_txt (fs.txtFile p))
    ∧ (p ≠ "" → pyEndsWith p ".pdf" = false → pyEndsWith p ".docx" = false →
      pyEndsWith p ".txt" = false →
      parse_document fs (some p)
        = "不支持的文件格式，仅支持PDF(.pdf)、Word(.docx)、TXT(.txt)")
    ∧ parse_document fs (some "a.PDF")
        = "不支持的文件格式，仅支持PDF(.pdf)、Word(.docx)、TXT(.txt)" := by
  refine ⟨?_, ?_, ?_, ?_, ?_⟩
  · intro h1
    have hp : p ≠ "" := by
      intro hp
      subst hp
      exact absurd h1 (by decide)
    simp [parse_document, hp, h1]
  · intro h2
    have hp : p ≠ "" := by
      intro hp
      subst hp
      exact absurd h2 (by decide)
    have h1 : pyEndsWith p ".pdf" = false := by
      rw [Bool.eq_false_iff]
      intro h1t
      rw [pyEndsWith] at h1t h2
      have s1 := List.isSuffixOf_iff_suffix.mp h1t
      have s2 := List.isSuffixOf_iff_suffix.mp h2
      rcases List.suffix_or_suffix_of_suffix s1 s2 with hh | hh
      · exact absurd hh (by decide)
      · exact absurd hh (by decide)
    simp [parse_document, hp, h1, h2]
  · intro h3
    have hp : p ≠ "" := by
      intro hp
      subst hp
      exact absurd h3 (by decide)
    have h1 : pyEndsWith p ".pdf" = false := by
      rw [Bool.eq_false_iff]
      intro h1t
      rw [pyEndsWith] at h1t
      rw [pyEndsWith] at h3
      have s1 := List.isSuffixOf_iff_suffix.mp h1t
      have s3 := List.isSuffixOf_iff_suffix.mp h3
      rcases List.suffix_or_suffix_of_suffix s1 s3 with hh | hh
      · exact absurd hh (by decide)
      · exact absurd hh (by decide)
    have h2 : pyEndsWith p ".docx" = false := by
      rw [Bool.eq_false_iff]
      intro h2t
      rw [pyEndsWith] at h2t
      rw [pyEndsWith] at h3
      have s2 := List.isSuffixOf_iff_suffix.mp h2t
      have s3 := List.isSuffixOf_iff_suffix.mp h3
      rcases List.suffix_or_suffix_of_suffix s2 s3 with hh | hh
      · exact absurd hh (by decide)
      · exact absurd hh (by decide)
    simp [parse_document, hp, h1, h2, h3]
  · intro hp h1 h2 h3
    simp [parse_document, hp, h1, h2, h3]
  · have e0 : ("a.PDF" : String) ≠ "" := by decide
    have e1 : pyEndsWith "a.PDF" ".pdf" = false := by decide
    have e2 : pyEndsWith "a.PDF" ".docx" = false := by decide
    have e3 : pyEndsWith "a.PDF" ".txt" = false := by decide
    simp [parse_document, e0, e1, e2, e3]

/-- C6 witness: the dispatch equations at concrete paths over the stub
file system. -/
theorem parse_document_dispatch_w :
    (pyEndsWith "a.pdf" ".pdf" = true
      ∧ parse_document failFS (some "a.pdf") = read_pdf (failFS.pdfFile "a.pdf"))
    ∧ (pyEndsWith "b.docx" ".docx" = true
      ∧ parse_document failFS (some "b.docx") = read_word (failFS.wordFile "b.docx"))
    ∧ (pyEndsWith "c.txt" ".txt" = true
      ∧ parse_document failFS (some "c.txt") = read_txt (failFS.txtFile "c.txt"))
    ∧ ("d.bin" ≠ ""
      ∧ parse_document failFS (some "d.bin")
          = "不支持的文件格式，仅支持PDF(.pdf)、Word(.docx)、TXT(.txt)")
    ∧ parse_document failFS (some "a.PDF")
        = "不支持的文件格式，仅支持PDF(.pdf)、Word(.docx)、TXT(.txt)" :=
  ⟨⟨by decide, (parse_document_dispatch failFS "a.pdf").1 (by decide)⟩,
   ⟨by decide, (parse_document_dispatch failFS "b.docx").2.1 (by decide)⟩,
   ⟨by decide, (parse_document_dispatch failFS "c.txt").2.2.1 (by decide)⟩,
   ⟨by decide,
    (parse_document_dispatch failFS "d.bin").2.2.2.1 (by decide) (by decide)
      (by decide) (by decide)⟩,
   (parse_document_dispatch failFS "a.PDF").2.2.2.2⟩

/-- C8: with otherwise valid text, a target language outside the language
allow-list (resp. a target format outside the format allow-list) produces
an error string in which every allow-listed value occurs as a contiguous
substring. -/
theorem allowlist_error_lists_values :
    (∀ (gw : Gateway) (text lang : String), 10 ≤ text.length →
      lang ∉ supported_langs →
      ∀ v ∈ supported_langs, ∃ l r : List Char,
        (translate_text gw text lang).data = l ++ v.data ++ r)
    ∧ (∀ (gw : Gateway) (text fmt : String), 50 ≤ text.length →
      fmt ∉ supported_formats →
      ∀ v ∈ supported_formats, ∃ l r : List Char,
        (format_conversion gw text fmt).data = l ++ v.data ++ r) := by
  constructor
  · intro gw text lang h hl v hv
    have h10 : ¬ text.length < 10 := by omega
    have herr : translate_text gw text lang
        = "不支持的目标语言：" ++ lang ++ "（支持："
            ++ String.intercalate "," supported_langs ++ "）" := by
      rw [translate_text, if_neg h10, if_pos hl]
    rw [herr]
    simp only [supported_langs, List.mem_cons, List.not_mem_nil, or_false] at hv
    rcases hv with rfl | rfl | rfl | rfl | rfl | rfl
    · refine ⟨("不支持的目标语言：" : String).data ++ lang.data
          ++ ("（支持：" : String).data,
        (",英文,日文,韩文,法文,德文）" : String).data, ?_⟩
      have hJ : (String.intercalate "," supported_langs).data ++ ("）" : String).data
          = ("中文" : String).data ++ (",英文,日文,韩文,法文,德文）" : String).data := by
        decide
      simp only [String.data_append, List.append_assoc, hJ]
    · refine ⟨("不支持的目标语言：" : String).data ++ lang.data
          ++ ("（支持：" : String).data ++ ("中文," : String).data,
        (",日文,韩文,法文,德文）" : String).data, ?_⟩
      have hJ : (String.intercalate "," supported_langs).data ++ ("）" : String).data
          = ("中文," : String).data
            ++ (("英文" : String).data ++ (",日文,韩文,法文,德文）" : String).data) := by
        decide
      simp only [String.data_append, List.append_assoc, hJ]
    · refine ⟨("不支持的目标语言：" : String).data ++ lang.data
          ++ ("（支持：" : String).data ++ ("中文,英文," : String).data,
        (",韩文,法文,德文）" : String).data, ?_⟩
      have hJ : (String.intercalate "," supported_langs).data ++ ("）" : String).data
          = ("中文,英文," : String).data
            ++ (("日文" : String).data ++ (",韩文,法文,德文）" : String).data) := by
        decide
      simp only [String.data_append, List.append_assoc, hJ]
    · refine ⟨("不支持的目标语言：" : String).data ++ lang.data
          ++ ("（支持：" : String).data ++ ("中文,英文,日文," : String).data,
        (",法文,德文）" : String).data, ?_⟩
      have hJ : (String.intercalate "," supported_langs).data ++ ("）" : String).data
          = ("中文,英文,日文," : String).data
            ++ (("韩文" : String).data ++ (",法文,德文）" : String).data) := by
        decide
      simp only [String.data_append, List.append_assoc, hJ]
    · refine ⟨("不支持的目标语言：" : String).data ++ lang.data
          ++ ("（支持：" : String).data ++ ("中文,英文,日文,韩文," : String).data,
        (",德文）" : String).data, ?_⟩
      have hJ : (String.intercalate "," supported_langs).data ++ ("）" : String).data
          = ("中文,英文,日文,韩文," : String).data
            ++ (("法文" : String).data ++ (",德文）" : String).data) := by
        decide
      simp only [String.data_append, List.append_assoc, hJ]
    · refine ⟨("不支持的目标语言：" : String).data ++ lang.data
          ++ ("（支持：" : String).data ++ ("中文,英文,日文,韩文,法文," : String).data,
        ("）" : String).data, ?_⟩
      have hJ : (String.intercalate "," supported_langs).data ++ ("）" : String).data
          = ("中文,英文,日文,韩文,法文," : String).data
            ++ (("德文" : String).data ++ ("）" : String).data) := by
        decide
      simp only [String.data_append, List.append_assoc, hJ]
  · intro gw text fmt h hf v hv
    have h50 : ¬ text.length < 50 := by omega
    have herr : format_conversion gw text fmt
        = "不支持的目标格式：" ++ fmt ++ "（支持："
            ++ String.intercalate "," supported_formats ++ "）" := by
      rw [format_conversion, if_neg h50, if_pos hf]
    rw [herr]
    simp only [supported_formats, List.mem_cons, List.not_mem_nil, or_false] at hv
    rcases hv with rfl | rfl | rfl | rfl
    · refine ⟨("不支持的目标格式：" : String).data ++ fmt.data
          ++ ("（支持：" : String).data,
        (",表格,项目符号列表,编号列表）" : String).data, ?_⟩
      have hJ : (String.intercalate "," supported_formats).data ++ ("）" : String).data
          = ("Markdown" : String).data ++ (",表格,项目符号列表,编号列表）" : String).data := by
        decide
      simp only [String.data_append, List.append_assoc, hJ]
    · refine ⟨("不支持的目标格式：" : String).data ++ fmt.data
          ++ ("（支持：" : String).data ++ ("Markdown," : String).data,
        (",项目符号列表,编号列表）" : String).data, ?_⟩
      have hJ : (String.intercalate "," supported_formats).data ++ ("）" : String).data
          = ("Markdown," : String).data
            ++ (("表格" : String).data ++ (",项目符号列表,编号列表）" : String).data) := by
        decide
      simp only [String.data_append, List.append_assoc, hJ]
    · refine ⟨("不支持的目标格式：" : String).data ++ fmt.data
          ++ ("（支持：" : String).data ++ ("Markdown,表格," : String).data,
        (",编号列表）" : String).data, ?_⟩
      have hJ : (String.intercalate "," supported_formats).data ++ ("）" : String).data
          = ("Markdown,表格," : String).data
            ++ (("项目符号列表" : String).data ++ (",编号列表）" : String).data) := by
        decide
      simp only [String.data_append, List.append_assoc, hJ]
    · refine ⟨("不支持的目标格式：" : String).data ++ fmt.data
          ++ ("（支持：" : String).data ++ ("Markdown,表格,项目符号列表," : String).data,
        ("）" : String).data, ?_⟩
      have hJ : (String.intercalate "," supported_formats).data ++ ("）" : String).data
          = ("Markdown,表格,项目符号列表," : String).data
            ++ (("编号列表" : String).data ++ ("）" : String).data) := by
        decide
      simp only [String.data_append, List.append_assoc, hJ]

/-- C8 witness: a rejected language and a rejected format at concrete
inputs, with one allow-listed value exhibited as a substring for each. -/
theorem allowlist_error_lists_values_w :
    (10 ≤ ("0123456789" : String).length
      ∧ "Latin" ∉ supported_langs
      ∧ "德文" ∈ supported_langs
      ∧ ∃ l r : List Char,
          (translate_text capture "0123456789" "Latin").data
            = l ++ ("德文" : String).data ++ r)
    ∧ (50 ≤ aText60.length
      ∧ "XML" ∉ supported_formats
      ∧ "表格" ∈ supported_formats
      ∧ ∃ l r : List Char,
          (format_conversion capture aText60 "XML").data
            = l ++ ("表格" : String).data ++ r) :=
  ⟨⟨by decide, by decide, by decide,
    allowlist_error_lists_values.1 capture "0123456789" "Latin"
      (by decide) (by decide) "德文" (by decide)⟩,
   ⟨by decide, by decide, by decide,
    allowlist_error_lists_values.2 capture aText60 "XML"
      (by decide) (by decide) "表格" (by decide)⟩⟩

end AIDocMCP
